import Mathlib

/-!
Verification development for the gic_sec Adventure presentation
(src/main.js). The file shallowly embeds the orchestration core of the
program: the shared session state, the per-scene trigger handlers
(BenefitScene.collectBenefit, NapiScene.update, BuildScene.reachSign,
ExampleScene.visitStation), the overlay presenter (createOverlay), the
boot-time animation registration (BootScene.create), and a whole-game
step relation covering scene transitions and the replay reset.

Modelling conventions:
- JS objects used as string-keyed boolean maps whose values are only ever
  set to `true` (gameState.benefitsCollected, gameState.examplesVisited)
  are embedded as the list of keys currently set to `true`.
- JS number arithmetic on the bridge progress counter is embedded over ℚ
  with the literal step 0.05 = 1/20 and clamp max 1. This idealisation is
  observationally faithful here: simulating IEEE-754 binary64 repeated
  addition of 0.05 clamped by Math.min(1, ·) first reaches 1.0 exactly at
  press 20, the same press at which the rational model reaches 1.
- An overlay's dismissal callback (the .then continuation) is applied
  atomically with the trigger in the per-scene models; a separate "live"
  model with explicit dismiss events is used where overlay interleaving
  itself is the property under study.
-/

set_option autoImplicit false

namespace GicSecAdventure

/-- Fixed benefit keys, in the order of the `positions` array of
BenefitScene.create (src/main.js lines 314-320); the same five keys are
checked by the `allCollected` predicate at line 429. -/
def benefitKeys : List String :=
  ["performance", "memory", "concurrency", "lowlevel", "integration"]

/-- Fixed station keys, in the order of the `stations` array of
ExampleScene.create (src/main.js lines 714-793). -/
def stationKeys : List String :=
  ["jwt", "password", "hashing", "random"]

/-- Embedding of the check at src/main.js line 429:
`['performance','memory','concurrency','lowlevel','integration'].every(k => gameState.benefitsCollected[k])`. -/
def allBenefitsCollected (collected : List String) : Bool :=
  benefitKeys.all (fun k => decide (k ∈ collected))

/-- Embedding of the check at src/main.js line 874:
`this.stations.every(s => gameState.examplesVisited[s.key])`. -/
def allStationsVisited (visited : List String) : Bool :=
  stationKeys.all (fun k => decide (k ∈ visited))

/-! ### BenefitScene (src/main.js lines 217-435) -/

/-- State of BenefitScene relevant to benefit collection: the global
`gameState.benefitsCollected` map, the `nextButton.visible` flag
(created hidden at lines 356-363), and a count of overlays presented. -/
structure BenefitSceneState where
  benefitsCollected : List String
  nextVisible : Bool
  overlaysShown : Nat
deriving DecidableEq

/-- BenefitScene state right after create(): nothing collected, next
button hidden, no overlay shown. -/
def benefitInit : BenefitSceneState :=
  { benefitsCollected := [], nextVisible := false, overlaysShown := 0 }

/-- Embedding of BenefitScene.collectBenefit (src/main.js lines 399-434)
with its overlay-dismissal continuation (lines 427-433) applied
atomically: if the benefit key is already collected, return immediately
(no state change, no overlay); otherwise mark it collected, present one
overlay, and on dismissal reveal the next button exactly when every
benefit key is collected. -/
def collectBenefit (st : BenefitSceneState) (key : String) : BenefitSceneState :=
  if key ∈ st.benefitsCollected then st
  else
    let collected := key :: st.benefitsCollected
    { benefitsCollected := collected
      nextVisible := st.nextVisible || allBenefitsCollected collected
      overlaysShown := st.overlaysShown + 1 }

/-! ### NapiScene (src/main.js lines 443-520) -/

/-- State of NapiScene relevant to bridge building: `this.buildProgress`
(constructor, line 446), the `this.overlayShown` guard flag (set at line
510), the `nextButton.visible` flag (lines 491-498, set in the overlay
continuation at line 515), and a count of overlays presented. -/
structure NapiSceneState where
  buildProgress : ℚ
  overlayShown : Bool
  nextVisible : Bool
  overlaysShown : Nat
deriving DecidableEq

/-- NapiScene state right after construction and create(). -/
def napiInit : NapiSceneState :=
  { buildProgress := 0, overlayShown := false, nextVisible := false, overlaysShown := 0 }

/-- Embedding of one JustDown space press in NapiScene.update
(src/main.js lines 503-519), with the overlay continuation (line 515)
applied atomically: progress increases by 0.05 clamped to 1
(`this.buildProgress = Math.min(1, this.buildProgress + 0.05)`), and when
the clamped progress has reached 1 and the overlay has not been shown
yet, the `overlayShown` flag is set, one overlay is presented, and on
dismissal the next button is revealed. -/
def pressSpace (st : NapiSceneState) : NapiSceneState :=
  let p := min 1 (st.buildProgress + 1/20)
  if 1 ≤ p ∧ st.overlayShown = false then
    { buildProgress := p
      overlayShown := true
      nextVisible := true
      overlaysShown := st.overlaysShown + 1 }
  else
    { st with buildProgress := p }

/-- Displayed width of the progress bar: `this.progressBar.width = 400 *
this.buildProgress` (src/main.js line 507). -/
def progressBarWidth (st : NapiSceneState) : ℚ :=
  400 * st.buildProgress

/-! ### BuildScene (src/main.js lines 529-665) -/

/-- Titles of the six build steps defined in BuildScene.create
(src/main.js lines 545-570); only their number matters for gating. -/
def buildSteps : List String :=
  ["Initialise a package", "Install napi-rs CLI", "Add the Rust crate",
   "Build the addon", "Link in package.json", "Install dependencies"]

/-- State of BuildScene relevant to step progression: `this.stepIndex`
(constructor, line 532), the `nextButton.visible` flag (lines 613-620,
set in the overlay continuation at lines 659-661), and a count of
overlays presented. -/
structure BuildSceneState where
  stepIndex : Nat
  nextVisible : Bool
  overlaysShown : Nat
deriving DecidableEq

/-- BuildScene state right after construction and create(). -/
def buildInit : BuildSceneState :=
  { stepIndex := 0, nextVisible := false, overlaysShown := 0 }

/-- Embedding of BuildScene.reachSign (src/main.js lines 653-664) with
its overlay continuation (lines 658-662) applied atomically: a signpost
whose `stepIndex` differs from the current pointer is ignored; the
matching signpost advances the pointer, presents one overlay, and on
dismissal reveals the next button when the pointer has reached the
number of steps (`this.stepIndex >= this.steps.length`). -/
def reachSign (st : BuildSceneState) (signIndex : Nat) : BuildSceneState :=
  if signIndex = st.stepIndex then
    { stepIndex := st.stepIndex + 1
      nextVisible := st.nextVisible || decide (buildSteps.length ≤ st.stepIndex + 1)
      overlaysShown := st.overlaysShown + 1 }
  else st

/-! ### ExampleScene (src/main.js lines 673-886) -/

/-- State of ExampleScene relevant to station visits: the global
`gameState.examplesVisited` map, the Finish button visibility (lines
818-825, set in the overlay continuation at lines 873-877), and a count
of overlays presented. -/
structure ExampleSceneState where
  examplesVisited : List String
  nextVisible : Bool
  overlaysShown : Nat
deriving DecidableEq

/-- ExampleScene state right after create(): nothing visited, Finish
button hidden. -/
def exampleInit : ExampleSceneState :=
  { examplesVisited := [], nextVisible := false, overlaysShown := 0 }

/-- Embedding of ExampleScene.visitStation (src/main.js lines 858-885)
with its overlay continuation applied atomically: an already-visited
station key returns immediately (no state change, no overlay); a new key
is marked visited, its example runs, one overlay is presented, and on
dismissal the Finish button is revealed exactly when every station key
is visited. -/
def visitStation (st : ExampleSceneState) (key : String) : ExampleSceneState :=
  if key ∈ st.examplesVisited then st
  else
    let visited := key :: st.examplesVisited
    { examplesVisited := visited
      nextVisible := st.nextVisible || allStationsVisited visited
      overlaysShown := st.overlaysShown + 1 }

/-! ### Overlay presenter (createOverlay, src/main.js lines 30-100) -/

/-- Content payload accepted by createOverlay: title, body, optional
code section and optional output section (src/main.js line 30). -/
structure OverlayContent where
  title : String
  body : String
  code : Option String
  output : Option String
deriving DecidableEq

/-- Presentation elements createOverlay inserts into its container: the
background rectangle (line 36), panel (line 43), title text (line 47),
body text (line 56), optional code text (line 67), optional output text
(line 77) and the close button (line 87). -/
inductive OverlayElement
  | bg
  | panel
  | titleText
  | bodyText
  | codeText
  | outputText
  | closeButton
deriving DecidableEq

/-- Elements inserted for a given payload: code and output texts are
created only when the corresponding optional field is present
(src/main.js lines 66-85). -/
def overlayElements (c : OverlayContent) : List OverlayElement :=
  [OverlayElement.bg, OverlayElement.panel, OverlayElement.titleText, OverlayElement.bodyText]
    ++ (match c.code with | some _ => [OverlayElement.codeText] | none => [])
    ++ (match c.output with | some _ => [OverlayElement.outputText] | none => [])
    ++ [OverlayElement.closeButton]

/-- Live state of one createOverlay invocation: the children of the
overlay container and how many times the returned promise has been
resolved. -/
structure OverlayInstance where
  elements : List OverlayElement
  resolvedCount : Nat
  destroyed : Bool
deriving DecidableEq

/-- Embedding of createOverlay's construction phase (src/main.js lines
30-94): all presentation elements are inserted into the container and
the promise is still pending. -/
def presentOverlay (c : OverlayContent) : OverlayInstance :=
  { elements := overlayElements c, resolvedCount := 0, destroyed := false }

/-- Embedding of the close-button pointerdown handler (src/main.js lines
95-98): `overlay.destroy()` removes the container together with every
child element (Phaser containers own and destroy their children), then
`resolve()` fires. Destroying the container also destroys the button and
its listener, so the handler cannot run on an already-destroyed overlay. -/
def closeOverlay (o : OverlayInstance) : OverlayInstance :=
  if o.destroyed then o
  else { elements := [], resolvedCount := o.resolvedCount + 1, destroyed := true }

/-! ### BootScene animation registration (src/main.js lines 107-146) -/

/-- One entry of the `anims` array in
assets/robot_platformer_animations.json, as consumed at src/main.js
lines 135-143. -/
structure AnimDef where
  key : String
  frameRate : Nat
  repeats : Int
deriving DecidableEq

/-- Shape of the cached robotAnims JSON document: the `anims` field may
be absent (`undefined`), which the code defends against with `|| []`
(src/main.js line 134). -/
structure RobotAnimsJson where
  anims : Option (List AnimDef)
deriving DecidableEq

/-- Embedding of the first statement of BootScene.create (src/main.js
line 134): `this.cache.json.get('robotAnims').anims || []`. The cache
lookup returns `undefined` (here `none`) when the optional JSON asset
failed to load; in that case the property access `.anims` on `undefined`
throws a TypeError before the `|| []` fallback can apply, so create()
aborts. When the document is present, a missing `anims` field falls back
to the empty list and registration succeeds. -/
def registerRobotAnims (cached : Option RobotAnimsJson) : Except String (List AnimDef) :=
  match cached with
  | none => Except.error "TypeError: cannot read properties of undefined (reading anims)"
  | some doc => Except.ok (doc.anims.getD [])

/-! ### Live BenefitScene model with explicit overlay dismissal

While an overlay is displayed, the scene is neither paused nor its input
disabled: BenefitScene.update (src/main.js lines 368-397) keeps reading
the keyboard cursors on every tick with no overlay guard, the physics
overlap callback (line 354) keeps firing, and the overlay's background
rectangle (line 36) is never made interactive, so nothing intercepts
input. A touch of a second, not-yet-collected benefit can therefore
occur between presenting an overlay and its dismissal. This model keeps
presentation and dismissal as separate events to study that
interleaving. -/

/-- Live BenefitScene state: collected keys, the number of overlays
currently displayed, and the number of overlays ever opened. -/
structure BenefitLiveState where
  benefitsCollected : List String
  activeOverlays : Nat
  overlaysOpened : Nat
deriving DecidableEq

/-- Events of the live BenefitScene model: a player-zone overlap for a
benefit key, or a click on the close button of the most recent overlay. -/
inductive BenefitEvent
  | touch (key : String)
  | dismiss
deriving DecidableEq

/-- Live BenefitScene state right after create(). -/
def benefitLiveInit : BenefitLiveState :=
  { benefitsCollected := [], activeOverlays := 0, overlaysOpened := 0 }

/-- One live BenefitScene event: a touch runs collectBenefit (src/main.js
lines 399-434), which returns immediately for an already-collected key
and otherwise marks the key and opens one overlay; a dismiss runs the
close-button handler of one displayed overlay (lines 95-98). -/
def benefitLiveStep (st : BenefitLiveState) (e : BenefitEvent) : BenefitLiveState :=
  match e with
  | BenefitEvent.touch key =>
      if key ∈ st.benefitsCollected then st
      else
        { benefitsCollected := key :: st.benefitsCollected
          activeOverlays := st.activeOverlays + 1
          overlaysOpened := st.overlaysOpened + 1 }
  | BenefitEvent.dismiss =>
      { st with activeOverlays := st.activeOverlays - 1 }

/-- An event of the live model is valid when its touch key is one of the
five benefit items actually laid out in BenefitScene.create (src/main.js
lines 314-320). -/
def benefitEventValid : BenefitEvent → Bool
  | BenefitEvent.touch key => decide (key ∈ benefitKeys)
  | BenefitEvent.dismiss => true

/-! ### Whole-game model (scene sequencing, session state, replay)

Phaser constructs each scene class exactly once, at game creation
(src/main.js line 966). `this.scene.start(...)` shuts the current scene
down and runs the target scene's create(), but never re-runs its
constructor, so fields assigned in constructors (NapiScene.buildProgress
at line 446, BuildScene.stepIndex at line 532) and fields only ever
assigned in handlers (NapiScene.overlayShown at line 510) persist across
restarts, while objects rebuilt in create() (each scene's next button,
always created hidden) are reset. -/

/-- Scene identifiers, in the order of the config scene list
(src/main.js line 966). -/
inductive SceneId
  | boot
  | title
  | benefit
  | napi
  | build
  | exampleScene
  | conclusion
deriving DecidableEq

/-- Whole-game state: the active scene, the global gameState maps
(src/main.js lines 20-23), and the per-scene fields that survive or are
rebuilt across scene starts. -/
structure GameState where
  scene : SceneId
  benefitsCollected : List String
  examplesVisited : List String
  benefitNextVisible : Bool
  buildProgress : ℚ
  overlayShown : Bool
  napiNextVisible : Bool
  stepIndex : Nat
  buildNextVisible : Bool
  exampleNextVisible : Bool
deriving DecidableEq

/-- State at game construction: BootScene active, empty session maps,
constructor-initialised counters, all next buttons hidden. -/
def gameInit : GameState :=
  { scene := SceneId.boot
    benefitsCollected := []
    examplesVisited := []
    benefitNextVisible := false
    buildProgress := 0
    overlayShown := false
    napiNextVisible := false
    stepIndex := 0
    buildNextVisible := false
    exampleNextVisible := false }

/-- Embedding of `this.scene.start(target)`: the target scene's create()
runs, rebuilding its next button hidden; constructor-assigned fields and
the global gameState are untouched. -/
def startScene (st : GameState) (s : SceneId) : GameState :=
  match s with
  | SceneId.boot => { st with scene := SceneId.boot }
  | SceneId.title => { st with scene := SceneId.title }
  | SceneId.benefit => { st with scene := SceneId.benefit, benefitNextVisible := false }
  | SceneId.napi => { st with scene := SceneId.napi, napiNextVisible := false }
  | SceneId.build => { st with scene := SceneId.build, buildNextVisible := false }
  | SceneId.exampleScene => { st with scene := SceneId.exampleScene, exampleNextVisible := false }
  | SceneId.conclusion => { st with scene := SceneId.conclusion }

/-- User-driven events of the whole-game model: the title start button
(line 205), a benefit overlap, the benefit next button (line 364), a
space press in NapiScene, its next button (line 499), a signpost
overlap, the build next button (line 621), a station overlap, the Finish
button (line 826), and the Play Again button of ConclusionScene (lines
937-942). -/
inductive GameEvent
  | startAdventure
  | collectB (key : String)
  | benefitNext
  | press
  | napiNext
  | touchSign (i : Nat)
  | buildNext
  | visitS (key : String)
  | exampleFinish
  | replay
deriving DecidableEq

/-- An event is valid when its key or index can actually be produced by
the scene's layout: benefit overlaps carry a key of the five items
(src/main.js lines 314-320), signposts carry indices 0..5 (lines
595-608), stations carry one of the four station keys (lines 714-793). -/
def eventValid : GameEvent → Bool
  | GameEvent.collectB key => decide (key ∈ benefitKeys)
  | GameEvent.touchSign i => decide (i < buildSteps.length)
  | GameEvent.visitS key => decide (key ∈ stationKeys)
  | _ => true

/-- One whole-game step. Each handler acts only in its own scene (a
destroyed scene's buttons and zones cannot fire); overlay continuations
are applied atomically as in the per-scene models. The replay handler
(src/main.js lines 937-942) resets the two gameState maps and starts
TitleScene; nothing else is reset. -/
def gameStep (st : GameState) (e : GameEvent) : GameState :=
  match e with
  | GameEvent.startAdventure =>
      if st.scene = SceneId.title then startScene st SceneId.benefit else st
  | GameEvent.collectB key =>
      if st.scene = SceneId.benefit ∧ ¬ key ∈ st.benefitsCollected then
        let collected := key :: st.benefitsCollected
        { st with benefitsCollected := collected
                  benefitNextVisible := st.benefitNextVisible || allBenefitsCollected collected }
      else st
  | GameEvent.benefitNext =>
      if st.scene = SceneId.benefit ∧ st.benefitNextVisible = true then
        startScene st SceneId.napi
      else st
  | GameEvent.press =>
      if st.scene = SceneId.napi then
        let p := min 1 (st.buildProgress + 1/20)
        if 1 ≤ p ∧ st.overlayShown = false then
          { st with buildProgress := p, overlayShown := true, napiNextVisible := true }
        else { st with buildProgress := p }
      else st
  | GameEvent.napiNext =>
      if st.scene = SceneId.napi ∧ st.napiNextVisible = true then
        startScene st SceneId.build
      else st
  | GameEvent.touchSign i =>
      if st.scene = SceneId.build ∧ i = st.stepIndex then
        { st with stepIndex := st.stepIndex + 1
                  buildNextVisible := st.buildNextVisible || decide (buildSteps.length ≤ st.stepIndex + 1) }
      else st
  | GameEvent.buildNext =>
      if st.scene = SceneId.build ∧ st.buildNextVisible = true then
        startScene st SceneId.exampleScene
      else st
  | GameEvent.visitS key =>
      if st.scene = SceneId.exampleScene ∧ ¬ key ∈ st.examplesVisited then
        let visited := key :: st.examplesVisited
        { st with examplesVisited := visited
                  exampleNextVisible := st.exampleNextVisible || allStationsVisited visited }
      else st
  | GameEvent.exampleFinish =>
      if st.scene = SceneId.exampleScene ∧ st.exampleNextVisible = true then
        startScene st SceneId.conclusion
      else st
  | GameEvent.replay =>
      if st.scene = SceneId.conclusion then
        startScene { st with benefitsCollected := [], examplesVisited := [] } SceneId.title
      else st

/-- Domain invariant of the two session maps: every key ever written
comes from the fixed closed key sets. -/
def keysInFixedSets (st : GameState) : Prop :=
  (∀ k ∈ st.benefitsCollected, k ∈ benefitKeys) ∧ (∀ k ∈ st.examplesVisited, k ∈ stationKeys)

instance (st : GameState) : Decidable (keysInFixedSets st) := by
  unfold keysInFixedSets
  infer_instance

/-- Configurations from which the bridge stage and the build-steps stage
can never reveal their advance controls again: the NapiScene overlay
guard is already set, the BuildScene pointer is already past the last
step, and whenever one of those scenes is the active one its next button
is hidden. -/
def stuck (st : GameState) : Prop :=
  st.overlayShown = true
  ∧ st.stepIndex = buildSteps.length
  ∧ (st.scene = SceneId.napi → st.napiNextVisible = false)
  ∧ (st.scene = SceneId.build → st.buildNextVisible = false)

/-- Whole-game state at the end of a completed first playthrough,
sitting on the conclusion scene: every benefit collected, every station
visited, the bridge overlay shown, all six steps done, every next button
revealed. -/
def endOfPlaythrough : GameState :=
  { scene := SceneId.conclusion
    benefitsCollected := benefitKeys
    examplesVisited := stationKeys
    benefitNextVisible := true
    buildProgress := 1
    overlayShown := true
    napiNextVisible := true
    stepIndex := buildSteps.length
    buildNextVisible := true
    exampleNextVisible := true }

/-! ## Helper lemmas -/

lemma allBenefitsCollected_cons (l : List String) (key : String)
    (h : allBenefitsCollected l = true) : allBenefitsCollected (key :: l) = true := by
  simp only [allBenefitsCollected, List.all_eq_true, decide_eq_true_eq] at h ⊢
  intro k hk
  exact List.mem_cons_of_mem _ (h k hk)

lemma collectBenefit_nextVisible_inv (st : BenefitSceneState) (key : String)
    (h : st.nextVisible = allBenefitsCollected st.benefitsCollected) :
    (collectBenefit st key).nextVisible
      = allBenefitsCollected (collectBenefit st key).benefitsCollected := by
  unfold collectBenefit
  split_ifs with hk
  · exact h
  · show (st.nextVisible || allBenefitsCollected (key :: st.benefitsCollected))
      = allBenefitsCollected (key :: st.benefitsCollected)
    rw [h]
    cases hc : allBenefitsCollected st.benefitsCollected with
    | false => simp
    | true => rw [allBenefitsCollected_cons _ _ hc]; simp

lemma collectBenefit_foldl_inv (ks : List String) (st : BenefitSceneState)
    (h : st.nextVisible = allBenefitsCollected st.benefitsCollected) :
    (ks.foldl collectBenefit st).nextVisible
      = allBenefitsCollected (ks.foldl collectBenefit st).benefitsCollected := by
  induction ks generalizing st with
  | nil => exact h
  | cons k ks ih => exact ih _ (collectBenefit_nextVisible_inv st k h)

lemma reachSign_range_foldl (j : Nat) :
    (List.range j).foldl reachSign buildInit
      = { stepIndex := j
          nextVisible := decide (buildSteps.length ≤ j)
          overlaysShown := j } := by
  induction j with
  | zero => rfl
  | succ j ih =>
      rw [List.range_succ, List.foldl_append, ih]
      show reachSign _ j = _
      unfold reachSign
      rw [if_pos rfl]
      by_cases h : buildSteps.length ≤ j
      · simp [h, Nat.le_succ_of_le h]
      · simp [h]

lemma allStationsVisited_cons (l : List String) (key : String)
    (h : allStationsVisited l = true) : allStationsVisited (key :: l) = true := by
  simp only [allStationsVisited, List.all_eq_true, decide_eq_true_eq] at h ⊢
  intro k hk
  exact List.mem_cons_of_mem _ (h k hk)

lemma visitStation_nextVisible_inv (st : ExampleSceneState) (key : String)
    (h : st.nextVisible = allStationsVisited st.examplesVisited) :
    (visitStation st key).nextVisible
      = allStationsVisited (visitStation st key).examplesVisited := by
  unfold visitStation
  split_ifs with hk
  · exact h
  · show (st.nextVisible || allStationsVisited (key :: st.examplesVisited))
      = allStationsVisited (key :: st.examplesVisited)
    rw [h]
    cases hc : allStationsVisited st.examplesVisited with
    | false => simp
    | true => rw [allStationsVisited_cons _ _ hc]; simp

lemma visitStation_foldl_inv (ks : List String) (st : ExampleSceneState)
    (h : st.nextVisible = allStationsVisited st.examplesVisited) :
    (ks.foldl visitStation st).nextVisible
      = allStationsVisited (ks.foldl visitStation st).examplesVisited := by
  induction ks generalizing st with
  | nil => exact h
  | cons k ks ih => exact ih _ (visitStation_nextVisible_inv st k h)

lemma visitStation_mem_mono (st : ExampleSceneState) (key x : String)
    (h : x ∈ st.examplesVisited) : x ∈ (visitStation st key).examplesVisited := by
  unfold visitStation
  split_ifs with hk
  · exact h
  · exact List.mem_cons_of_mem _ h

lemma visitStation_mem_self (st : ExampleSceneState) (key : String) :
    key ∈ (visitStation st key).examplesVisited := by
  unfold visitStation
  split_ifs with hk
  · exact hk
  · exact List.mem_cons_self _ _

lemma visitStation_foldl_mem_mono (ks : List String) (st : ExampleSceneState) (x : String)
    (h : x ∈ st.examplesVisited) : x ∈ (ks.foldl visitStation st).examplesVisited := by
  induction ks generalizing st with
  | nil => exact h
  | cons k ks ih => exact ih _ (visitStation_mem_mono st k x h)

lemma visitStation_foldl_mem (ks : List String) (st : ExampleSceneState) (x : String)
    (h : x ∈ ks) : x ∈ (ks.foldl visitStation st).examplesVisited := by
  induction ks generalizing st with
  | nil => cases h
  | cons k ks ih =>
      rcases List.mem_cons.mp h with rfl | hx
      · exact visitStation_foldl_mem_mono ks _ x (visitStation_mem_self st x)
      · exact ih (visitStation st k) hx

lemma pressSpace_iterate (k : Nat) :
    pressSpace^[k] napiInit
      = { buildProgress := min 1 ((k : ℚ) / 20)
          overlayShown := decide (20 ≤ k)
          nextVisible := decide (20 ≤ k)
          overlaysShown := if 20 ≤ k then 1 else 0 } := by
  induction k with
  | zero =>
      show napiInit = _
      have h0 : min (1:ℚ) ((0:ℚ)/20) = 0 := by norm_num
      simp [napiInit, h0]
  | succ k ih =>
      rw [Function.iterate_succ_apply', ih]
      have hq20 : (0:ℚ) < 20 := by norm_num
      have hcast : (k : ℚ) / 20 + 1 / 20 = ((k + 1 : Nat) : ℚ) / 20 := by
        push_cast
        ring
      rcases lt_trichotomy k 19 with hk | hk | hk
      · have h20 : ¬ 20 ≤ k := by omega
        have h20s : ¬ 20 ≤ k + 1 := by omega
        have hle : (k : ℚ) / 20 ≤ 1 := by
          rw [div_le_one hq20]
          exact_mod_cast (by omega : k ≤ 20)
        have hmin : min (1:ℚ) ((k : ℚ)/20) = (k : ℚ)/20 := min_eq_right hle
        have hlt : ((k + 1 : Nat) : ℚ) / 20 < 1 := by
          rw [div_lt_one hq20]
          exact_mod_cast (by omega : k + 1 < 20)
        have hnot : ¬ (1:ℚ) ≤ min 1 (((k + 1 : Nat) : ℚ)/20) := by
          rw [min_eq_right (le_of_lt hlt)]
          exact not_le.mpr hlt
        simp only [pressSpace, hmin, hcast, hnot, false_and, if_false, ite_false]
        simp [h20, h20s]
      · subst hk
        have h20 : ¬ (20:Nat) ≤ 19 := by omega
        have h20s : (20:Nat) ≤ 19 + 1 := by omega
        have hmin : min (1:ℚ) (((19:Nat) : ℚ)/20) = ((19:Nat):ℚ)/20 := by
          apply min_eq_right
          push_cast
          norm_num
        have hone : min (1:ℚ) (((19:Nat):ℚ)/20 + 1/20) = 1 := by
          push_cast
          norm_num
        have hmins : min (1:ℚ) (((19 + 1 : Nat) : ℚ)/20) = 1 := by
          push_cast
          norm_num
        simp only [pressSpace, hmin, hone, hmins]
        simp [h20, h20s]
      · have h20 : 20 ≤ k := by omega
        have h20s : 20 ≤ k + 1 := by omega
        have hq : (1:ℚ) ≤ (k : ℚ) / 20 := by
          rw [one_le_div hq20]
          exact_mod_cast h20
        have hmin : min (1:ℚ) ((k : ℚ)/20) = 1 := min_eq_left hq
        have hqs : (1:ℚ) ≤ ((k + 1 : Nat) : ℚ) / 20 := by
          rw [one_le_div hq20]
          exact_mod_cast (by omega : (20:Nat) ≤ k + 1)
        have hmins : min (1:ℚ) (((k + 1 : Nat) : ℚ)/20) = 1 := min_eq_left hqs
        have hone : min (1:ℚ) (1 + 1/20) = 1 := by norm_num
        simp only [pressSpace, hmin, hone, hmins]
        simp [h20, h20s]

lemma benefitLive_foldl_inv (es : List BenefitEvent) (st : BenefitLiveState)
    (hv : es.all benefitEventValid = true)
    (h1 : st.overlaysOpened = st.benefitsCollected.length)
    (h2 : ∀ k ∈ st.benefitsCollected, k ∈ benefitKeys)
    (h3 : st.benefitsCollected.Nodup) :
    (es.foldl benefitLiveStep st).overlaysOpened
        = (es.foldl benefitLiveStep st).benefitsCollected.length
    ∧ (∀ k ∈ (es.foldl benefitLiveStep st).benefitsCollected, k ∈ benefitKeys)
    ∧ (es.foldl benefitLiveStep st).benefitsCollected.Nodup := by
  induction es generalizing st with
  | nil => exact ⟨h1, h2, h3⟩
  | cons e es ih =>
      rw [List.all_cons, Bool.and_eq_true] at hv
      cases e with
      | touch key =>
          simp only [benefitEventValid, decide_eq_true_eq] at hv
          rw [List.foldl_cons]
          by_cases hk : key ∈ st.benefitsCollected
          · have hstep : benefitLiveStep st (BenefitEvent.touch key) = st := by
              unfold benefitLiveStep
              simp [hk]
            rw [hstep]
            exact ih st hv.2 h1 h2 h3
          · have hstep : benefitLiveStep st (BenefitEvent.touch key)
                = { benefitsCollected := key :: st.benefitsCollected
                    activeOverlays := st.activeOverlays + 1
                    overlaysOpened := st.overlaysOpened + 1 } := by
              unfold benefitLiveStep
              simp [hk]
            rw [hstep]
            refine ih _ hv.2 ?_ ?_ ?_
            · simp [h1]
            · intro k hkk
              rcases List.mem_cons.mp hkk with rfl | hkk2
              · exact hv.1
              · exact h2 k hkk2
            · exact List.nodup_cons.mpr ⟨hk, h3⟩
      | dismiss =>
          rw [List.foldl_cons]
          exact ih _ hv.2 h1 h2 h3

lemma stuck_step (st : GameState) (e : GameEvent) (hv : eventValid e = true)
    (h : stuck st) : stuck (gameStep st e) := by
  obtain ⟨hov, hstep, hnapi, hbuild⟩ := h
  unfold stuck
  cases e with
  | startAdventure =>
      simp only [gameStep]
      split_ifs with hc
      · exact ⟨hov, hstep, fun hs => SceneId.noConfusion hs, fun hs => SceneId.noConfusion hs⟩
      · exact ⟨hov, hstep, hnapi, hbuild⟩
  | collectB key =>
      simp only [gameStep]
      split_ifs with hc
      · exact ⟨hov, hstep, hnapi, hbuild⟩
      · exact ⟨hov, hstep, hnapi, hbuild⟩
  | benefitNext =>
      simp only [gameStep]
      split_ifs with hc
      · exact ⟨hov, hstep, fun _ => rfl, fun hs => SceneId.noConfusion hs⟩
      · exact ⟨hov, hstep, hnapi, hbuild⟩
  | press =>
      simp only [gameStep]
      split_ifs with hc hc2
      · have h2 := hc2.2
        rw [hov] at h2
        exact Bool.noConfusion h2
      · exact ⟨hov, hstep, hnapi, hbuild⟩
      · exact ⟨hov, hstep, hnapi, hbuild⟩
  | napiNext =>
      simp only [gameStep]
      split_ifs with hc
      · have h2 := hc.2
        rw [hnapi hc.1] at h2
        exact Bool.noConfusion h2
      · exact ⟨hov, hstep, hnapi, hbuild⟩
  | touchSign i =>
      simp only [eventValid, decide_eq_true_eq] at hv
      simp only [gameStep]
      split_ifs with hc
      · exfalso
        have hlen : buildSteps.length = 6 := rfl
        have hi := hc.2
        rw [hlen] at hv hstep
        omega
      · exact ⟨hov, hstep, hnapi, hbuild⟩
  | buildNext =>
      simp only [gameStep]
      split_ifs with hc
      · have h2 := hc.2
        rw [hbuild hc.1] at h2
        exact Bool.noConfusion h2
      · exact ⟨hov, hstep, hnapi, hbuild⟩
  | visitS key =>
      simp only [gameStep]
      split_ifs with hc
      · exact ⟨hov, hstep, hnapi, hbuild⟩
      · exact ⟨hov, hstep, hnapi, hbuild⟩
  | exampleFinish =>
      simp only [gameStep]
      split_ifs with hc
      · exact ⟨hov, hstep, fun hs => SceneId.noConfusion hs, fun hs => SceneId.noConfusion hs⟩
      · exact ⟨hov, hstep, hnapi, hbuild⟩
  | replay =>
      simp only [gameStep]
      split_ifs with hc
      · exact ⟨hov, hstep, fun hs => SceneId.noConfusion hs, fun hs => SceneId.noConfusion hs⟩
      · exact ⟨hov, hstep, hnapi, hbuild⟩

lemma stuck_foldl (es : List GameEvent) (st : GameState)
    (hv : es.all eventValid = true) (h : stuck st) :
    stuck (es.foldl gameStep st) := by
  induction es generalizing st with
  | nil => exact h
  | cons e es ih =>
      rw [List.all_cons, Bool.and_eq_true] at hv
      exact ih _ hv.2 (stuck_step st e hv.1 h)

/-! ## Claim theorems -/

/-- Claim C1: in the benefit stage, over every sequence of collection
triggers, the advance control's visibility is true if and only if all
five fixed benefit keys are true in benefitsCollected; and triggering a
key already marked true is a no-op: the state (including the overlay
count) is unchanged, so no duplicate overlay is presented. -/
theorem C1_benefit_gate_iff_and_idempotent :
    (∀ ks : List String,
        ((ks.foldl collectBenefit benefitInit).nextVisible = true
          ↔ allBenefitsCollected (ks.foldl collectBenefit benefitInit).benefitsCollected = true))
    ∧ ∀ (st : BenefitSceneState) (key : String),
        key ∈ st.benefitsCollected → collectBenefit st key = st := by
  constructor
  · intro ks
    rw [collectBenefit_foldl_inv ks benefitInit (by decide)]
  · intro st key h
    unfold collectBenefit
    simp [h]

/-- Witness for C1: collecting an already-collected key at a concrete
state changes nothing. -/
theorem C1_benefit_gate_iff_and_idempotent_witness :
    collectBenefit
        { benefitsCollected := ["performance"], nextVisible := false, overlaysShown := 1 }
        "performance"
      = { benefitsCollected := ["performance"], nextVisible := false, overlaysShown := 1 } :=
  C1_benefit_gate_iff_and_idempotent.2 _ "performance" (by simp)

/-- Claim C2: in the bridge-building stage, after k presses of the
progress action the progress equals min(1, k · 0.05) and the displayed
bar width is 400 times that; the progress reaches the maximum exactly
when k ≥ 20, i.e. first at press 20; and the completion overlay has
fired exactly once for k ≥ 20 and never before, guarded by the
overlayShown flag, which is a Bool distinct from the progress counter. -/
theorem C2_bridge_progress_min_and_single_overlay (k : Nat) :
    (pressSpace^[k] napiInit).buildProgress = min 1 ((k : ℚ) * (1/20))
    ∧ progressBarWidth (pressSpace^[k] napiInit) = 400 * min 1 ((k : ℚ) * (1/20))
    ∧ ((pressSpace^[k] napiInit).buildProgress = 1 ↔ 20 ≤ k)
    ∧ ((pressSpace^[k] napiInit).overlaysShown = if 20 ≤ k then 1 else 0)
    ∧ (pressSpace^[k] napiInit).overlayShown = decide (20 ≤ k) := by
  have hmul : (k : ℚ) * (1/20) = (k : ℚ) / 20 := by ring
  rw [pressSpace_iterate k, hmul]
  refine ⟨rfl, rfl, ?_, rfl, rfl⟩
  show min (1:ℚ) ((k : ℚ) / 20) = 1 ↔ 20 ≤ k
  constructor
  · intro h
    have hle : (1:ℚ) ≤ (k : ℚ) / 20 := h ▸ min_le_right 1 ((k : ℚ) / 20)
    rw [one_le_div (by norm_num : (0:ℚ) < 20)] at hle
    exact_mod_cast hle
  · intro h
    apply min_eq_left
    rw [one_le_div (by norm_num : (0:ℚ) < 20)]
    exact_mod_cast h

/-- Claim C3: in the build-steps stage, touching a signpost whose step
index differs from the current pointer is a no-op (no state change, no
overlay); touching the zones in ascending order 0..j-1 for j ≤ 6 yields
pointer j and exactly j overlays, and the advance control is revealed
exactly when j = 6, i.e. only after the last step's overlay is
dismissed. -/
theorem C3_build_steps_in_order (j : Nat) (hj : j ≤ 6) :
    (∀ (st : BuildSceneState) (i : Nat), i ≠ st.stepIndex → reachSign st i = st)
    ∧ ((List.range j).foldl reachSign buildInit).stepIndex = j
    ∧ ((List.range j).foldl reachSign buildInit).overlaysShown = j
    ∧ (((List.range j).foldl reachSign buildInit).nextVisible = true ↔ j = 6) := by
  refine ⟨fun st i hi => by unfold reachSign; simp [hi], ?_, ?_, ?_⟩
  · rw [reachSign_range_foldl j]
  · rw [reachSign_range_foldl j]
  · rw [reachSign_range_foldl j]
    show (decide (buildSteps.length ≤ j) = true ↔ j = 6)
    have hlen : buildSteps.length = 6 := rfl
    rw [hlen]
    simp only [decide_eq_true_eq]
    omega

/-- Witness for C3: an out-of-order touch at the initial state is a
no-op, and touching all six signposts in ascending order reveals the
advance control. -/
theorem C3_build_steps_in_order_witness :
    reachSign buildInit 3 = buildInit
    ∧ ((List.range 6).foldl reachSign buildInit).nextVisible = true := by
  have h := C3_build_steps_in_order 6 (by norm_num)
  exact ⟨h.1 buildInit 3 (by decide), h.2.2.2.mpr rfl⟩

/-- Claim C4: in the example-stations stage, visiting the stations in
any order that covers all four fixed station keys sets every flag true
in examplesVisited and reveals the Finish control; and visiting a
station whose flag is already true is a no-op (identical state, so no
new overlay). -/
theorem C4_stations_any_order (ks : List String) (hks : ∀ k ∈ stationKeys, k ∈ ks) :
    (allStationsVisited (ks.foldl visitStation exampleInit).examplesVisited = true
      ∧ (ks.foldl visitStation exampleInit).nextVisible = true)
    ∧ ∀ (st : ExampleSceneState) (key : String),
        key ∈ st.examplesVisited → visitStation st key = st := by
  have hall : allStationsVisited (ks.foldl visitStation exampleInit).examplesVisited = true := by
    simp only [allStationsVisited, List.all_eq_true, decide_eq_true_eq]
    intro k hk
    exact visitStation_foldl_mem ks _ k (hks k hk)
  refine ⟨⟨hall, ?_⟩, ?_⟩
  · rw [visitStation_foldl_inv ks exampleInit (by decide)]
    exact hall
  · intro st key h
    unfold visitStation
    simp [h]

/-- Witness for C4: visiting the four stations in a different order than
declared sets all flags and reveals the Finish control. -/
theorem C4_stations_any_order_witness :
    allStationsVisited
        ((["random", "jwt", "hashing", "password"].foldl visitStation exampleInit).examplesVisited)
        = true
    ∧ (["random", "jwt", "hashing", "password"].foldl visitStation exampleInit).nextVisible = true :=
  (C4_stations_any_order ["random", "jwt", "hashing", "password"] (by decide)).1

/-- Claim C8 (evaluation at the failing input): BootScene.create's very
first step reads `.anims` off the cached robotAnims JSON; when that
optional asset failed to load the cache lookup yields `undefined` and
the access throws a TypeError, so animation registration does not
complete without error. When the document did load, registration
succeeds for every document, even one with no anims field. -/
theorem C8_missing_anims_json_throws :
    registerRobotAnims none
        = Except.error "TypeError: cannot read properties of undefined (reading anims)"
    ∧ ∀ doc : RobotAnimsJson, registerRobotAnims (some doc) = Except.ok (doc.anims.getD []) :=
  ⟨rfl, fun _ => rfl⟩

/-- Claim C9: for every content payload, the overlay presenter starts
with its completion signal unresolved, and dismissal resolves it exactly
once, removes every inserted presentation element, and leaves a state on
which further close events have no effect. -/
theorem C9_overlay_single_fire_full_cleanup (c : OverlayContent) :
    (presentOverlay c).resolvedCount = 0
    ∧ (closeOverlay (presentOverlay c)).resolvedCount = 1
    ∧ (closeOverlay (presentOverlay c)).elements = []
    ∧ ∀ n : Nat, closeOverlay^[n] (closeOverlay (presentOverlay c)) = closeOverlay (presentOverlay c) := by
  refine ⟨rfl, rfl, rfl, ?_⟩
  intro n
  induction n with
  | zero => rfl
  | succ n ih => rw [Function.iterate_succ_apply', ih]; rfl

/-- Claim C7, counterexample: it is not the case that at most one
overlay is active at a time in the benefit scene. Nothing in the code
blocks the underlying update loop or its triggers while an overlay is
presented: touching the performance item and then, before any dismissal,
the memory item leaves two overlays active simultaneously. -/
theorem C7_overlay_mutual_exclusion_fails :
    ¬ (∀ es : List BenefitEvent, es.all benefitEventValid = true →
        (es.foldl benefitLiveStep benefitLiveInit).activeOverlays ≤ 1) := by
  intro h
  have h2 := h [BenefitEvent.touch "performance", BenefitEvent.touch "memory"] (by decide)
  exact absurd h2 (by decide)

/-- Claim C7 as amended: the presenter enforces no mutual exclusion —
while an overlay is up the scene keeps processing input and triggers, so
a second overlay for a different uncollected key can be presented before
the first completion signal fires. What does hold is per-key modality:
over every valid event trace, the number of overlays ever opened equals
the number of distinct benefit keys collected, hence each key opens at
most one overlay and at most five overlays are ever opened. -/
theorem C7_per_key_overlay_at_most_once (es : List BenefitEvent)
    (hv : es.all benefitEventValid = true) :
    (es.foldl benefitLiveStep benefitLiveInit).overlaysOpened
        = (es.foldl benefitLiveStep benefitLiveInit).benefitsCollected.length
    ∧ (es.foldl benefitLiveStep benefitLiveInit).overlaysOpened ≤ benefitKeys.length := by
  have h := benefitLive_foldl_inv es benefitLiveInit hv rfl
    (by intro k hk; cases hk) List.nodup_nil
  refine ⟨h.1, ?_⟩
  rw [h.1]
  exact (List.subperm_of_subset h.2.2 (fun k hk => h.2.1 k hk)).length_le

/-- Witness for C7's amended theorem: a trace that opens two overlays
before the first dismissal still opens each key's overlay at most once. -/
theorem C7_per_key_overlay_at_most_once_witness :
    ([BenefitEvent.touch "performance", BenefitEvent.touch "memory",
        BenefitEvent.dismiss, BenefitEvent.dismiss].foldl benefitLiveStep benefitLiveInit).overlaysOpened
        = ([BenefitEvent.touch "performance", BenefitEvent.touch "memory",
            BenefitEvent.dismiss, BenefitEvent.dismiss].foldl benefitLiveStep
              benefitLiveInit).benefitsCollected.length
    ∧ ([BenefitEvent.touch "performance", BenefitEvent.touch "memory",
        BenefitEvent.dismiss, BenefitEvent.dismiss].foldl benefitLiveStep
          benefitLiveInit).overlaysOpened ≤ benefitKeys.length :=
  C7_per_key_overlay_at_most_once
    [BenefitEvent.touch "performance", BenefitEvent.touch "memory",
      BenefitEvent.dismiss, BenefitEvent.dismiss] (by decide)

/-- Claim C5: for every state, every event the scenes can produce other
than replay preserves every key already set in both session mappings;
and every such event, replay included, keeps the keys of both mappings
inside the fixed closed key sets. -/
theorem C5_session_keys_monotone_and_closed (st : GameState) (e : GameEvent)
    (hv : eventValid e = true) :
    (e ≠ GameEvent.replay →
      (∀ k ∈ st.benefitsCollected, k ∈ (gameStep st e).benefitsCollected)
      ∧ ∀ k ∈ st.examplesVisited, k ∈ (gameStep st e).examplesVisited)
    ∧ (keysInFixedSets st → keysInFixedSets (gameStep st e)) := by
  cases e with
  | collectB key =>
      simp only [eventValid, decide_eq_true_eq] at hv
      constructor
      · intro _
        refine ⟨fun k hk => ?_, fun k hk => ?_⟩ <;> (simp only [gameStep]; split_ifs)
        · exact List.mem_cons_of_mem _ hk
        · exact hk
        · exact hk
        · exact hk
      · intro hinv
        unfold keysInFixedSets at hinv ⊢
        simp only [gameStep]
        split_ifs with h
        · refine ⟨fun k hk => ?_, hinv.2⟩
          rcases List.mem_cons.mp hk with rfl | hk2
          · exact hv
          · exact hinv.1 k hk2
        · exact hinv
  | visitS key =>
      simp only [eventValid, decide_eq_true_eq] at hv
      constructor
      · intro _
        refine ⟨fun k hk => ?_, fun k hk => ?_⟩ <;> (simp only [gameStep]; split_ifs)
        · exact hk
        · exact hk
        · exact List.mem_cons_of_mem _ hk
        · exact hk
      · intro hinv
        unfold keysInFixedSets at hinv ⊢
        simp only [gameStep]
        split_ifs with h
        · refine ⟨hinv.1, fun k hk => ?_⟩
          rcases List.mem_cons.mp hk with rfl | hk2
          · exact hv
          · exact hinv.2 k hk2
        · exact hinv
  | replay =>
      refine ⟨fun h => absurd rfl h, fun hinv => ?_⟩
      unfold keysInFixedSets at hinv ⊢
      simp only [gameStep]
      split_ifs with h
      · exact ⟨fun k hk => absurd hk (List.not_mem_nil k),
          fun k hk => absurd hk (List.not_mem_nil k)⟩
      · exact hinv
  | startAdventure =>
      refine ⟨fun _ => ⟨fun k hk => ?_, fun k hk => ?_⟩, fun hinv => ?_⟩ <;>
        (simp only [gameStep]; split_ifs) <;> first | exact hk | exact hinv
  | benefitNext =>
      refine ⟨fun _ => ⟨fun k hk => ?_, fun k hk => ?_⟩, fun hinv => ?_⟩ <;>
        (simp only [gameStep]; split_ifs) <;> first | exact hk | exact hinv
  | press =>
      refine ⟨fun _ => ⟨fun k hk => ?_, fun k hk => ?_⟩, fun hinv => ?_⟩ <;>
        (simp only [gameStep]; split_ifs) <;> first | exact hk | exact hinv
  | napiNext =>
      refine ⟨fun _ => ⟨fun k hk => ?_, fun k hk => ?_⟩, fun hinv => ?_⟩ <;>
        (simp only [gameStep]; split_ifs) <;> first | exact hk | exact hinv
  | touchSign i =>
      refine ⟨fun _ => ⟨fun k hk => ?_, fun k hk => ?_⟩, fun hinv => ?_⟩ <;>
        (simp only [gameStep]; split_ifs) <;> first | exact hk | exact hinv
  | buildNext =>
      refine ⟨fun _ => ⟨fun k hk => ?_, fun k hk => ?_⟩, fun hinv => ?_⟩ <;>
        (simp only [gameStep]; split_ifs) <;> first | exact hk | exact hinv
  | exampleFinish =>
      refine ⟨fun _ => ⟨fun k hk => ?_, fun k hk => ?_⟩, fun hinv => ?_⟩ <;>
        (simp only [gameStep]; split_ifs) <;> first | exact hk | exact hinv

/-- Witness for C5: collecting the first benefit from the initial state
keeps both mappings inside the fixed key sets. -/
theorem C5_session_keys_monotone_and_closed_witness :
    keysInFixedSets (gameStep gameInit (GameEvent.collectB "performance")) :=
  (C5_session_keys_monotone_and_closed gameInit (GameEvent.collectB "performance")
    (by decide)).2 (by decide)

/-- Claim C6: from any state on the conclusion scene, the replay action
empties both session mappings and positions the game at the title
scene. -/
theorem C6_replay_resets_session_and_returns_to_title (st : GameState)
    (h : st.scene = SceneId.conclusion) :
    (gameStep st GameEvent.replay).benefitsCollected = []
    ∧ (gameStep st GameEvent.replay).examplesVisited = []
    ∧ (gameStep st GameEvent.replay).scene = SceneId.title := by
  simp only [gameStep]
  rw [if_pos h]
  exact ⟨rfl, rfl, rfl⟩

/-- Witness for C6: replay from a concrete conclusion-scene state. -/
theorem C6_replay_resets_witness :
    (gameStep { gameInit with scene := SceneId.conclusion } GameEvent.replay).benefitsCollected = []
    ∧ (gameStep { gameInit with scene := SceneId.conclusion } GameEvent.replay).examplesVisited = []
    ∧ (gameStep { gameInit with scene := SceneId.conclusion } GameEvent.replay).scene = SceneId.title :=
  C6_replay_resets_session_and_returns_to_title { gameInit with scene := SceneId.conclusion } rfl

/-- Claim C10: replay clears only the two session mappings — the bridge
stage's progress counter and overlay-shown flag, the build-steps stage's
step pointer, and every next-button flag are left exactly as they were —
and consequently, starting from a completed playthrough (overlay guard
set, step pointer at 6), no valid sequence of events after replay can
ever make the bridge stage or the build-steps stage reveal its advance
control again. -/
theorem C10_replay_frame_and_second_playthrough_stuck (st : GameState)
    (hscene : st.scene = SceneId.conclusion)
    (hov : st.overlayShown = true)
    (hstep : st.stepIndex = buildSteps.length) :
    ((gameStep st GameEvent.replay).buildProgress = st.buildProgress
      ∧ (gameStep st GameEvent.replay).overlayShown = st.overlayShown
      ∧ (gameStep st GameEvent.replay).stepIndex = st.stepIndex
      ∧ (gameStep st GameEvent.replay).benefitNextVisible = st.benefitNextVisible
      ∧ (gameStep st GameEvent.replay).napiNextVisible = st.napiNextVisible
      ∧ (gameStep st GameEvent.replay).buildNextVisible = st.buildNextVisible
      ∧ (gameStep st GameEvent.replay).exampleNextVisible = st.exampleNextVisible)
    ∧ ∀ es : List GameEvent, es.all eventValid = true →
        ((es.foldl gameStep (gameStep st GameEvent.replay)).scene = SceneId.napi →
          (es.foldl gameStep (gameStep st GameEvent.replay)).napiNextVisible = false)
        ∧ ((es.foldl gameStep (gameStep st GameEvent.replay)).scene = SceneId.build →
          (es.foldl gameStep (gameStep st GameEvent.replay)).buildNextVisible = false) := by
  have hre : gameStep st GameEvent.replay
      = startScene { st with benefitsCollected := [], examplesVisited := [] } SceneId.title := by
    simp only [gameStep]
    rw [if_pos hscene]
  constructor
  · rw [hre]
    exact ⟨rfl, rfl, rfl, rfl, rfl, rfl, rfl⟩
  · intro es hv
    have h0 : stuck (gameStep st GameEvent.replay) := by
      rw [hre]
      exact ⟨hov, hstep, fun hs => SceneId.noConfusion hs, fun hs => SceneId.noConfusion hs⟩
    have hfin := stuck_foldl es _ hv h0
    exact ⟨hfin.2.2.1, hfin.2.2.2⟩

/-- Witness for C10: from the concrete end-of-playthrough state, after
replay the player can restart, re-collect all five benefits and advance
to the bridge stage, but its next button stays hidden. -/
theorem C10_replay_frame_and_second_playthrough_stuck_witness :
    (([GameEvent.startAdventure, GameEvent.collectB "performance", GameEvent.collectB "memory",
        GameEvent.collectB "concurrency", GameEvent.collectB "lowlevel",
        GameEvent.collectB "integration", GameEvent.benefitNext].foldl gameStep
          (gameStep endOfPlaythrough GameEvent.replay)).napiNextVisible = false) := by
  have h := C10_replay_frame_and_second_playthrough_stuck endOfPlaythrough rfl rfl rfl
  exact (h.2 [GameEvent.startAdventure, GameEvent.collectB "performance",
      GameEvent.collectB "memory", GameEvent.collectB "concurrency",
      GameEvent.collectB "lowlevel", GameEvent.collectB "integration",
      GameEvent.benefitNext] (by decide)).1 (by decide)

end GicSecAdventure
